import Mathlib

/-- Python-like values appearing in the bot's decoded JSON payloads. -/
inductive PyVal where
  | none
  | bool (b : Bool)
  | int (n : Int)
  | str (s : String)
  | list (xs : List PyVal)
  | dict (entries : List (String × PyVal))

/-- A raised Python exception, recorded as its class name and its str(). -/
structure PyExc where
  cls : String
  msg : String
deriving DecidableEq

mutual

/-- Python repr() for the values of `PyVal`. -/
def pyRepr : PyVal → String
  | .none => "None"
  | .bool true => "True"
  | .bool false => "False"
  | .int n => toString n
  | .str s => "\x27" ++ s ++ "\x27"
  | .list xs => "[" ++ pyReprList xs ++ "]"
  | .dict es => "\x7b" ++ pyReprDict es ++ "\x7d"

/-- Comma-separated reprs of a list's elements. -/
def pyReprList : List PyVal → String
  | [] => ""
  | [x] => pyRepr x
  | x :: xs => pyRepr x ++ ", " ++ pyReprList xs

/-- Comma-separated reprs of a dict's entries. -/
def pyReprDict : List (String × PyVal) → String
  | [] => ""
  | [e] => "\x27" ++ e.1 ++ "\x27: " ++ pyRepr e.2
  | e :: es => "\x27" ++ e.1 ++ "\x27: " ++ pyRepr e.2 ++ ", " ++ pyReprDict es

end

/-- Python str() as used by f-string interpolation. -/
def pyStr : PyVal → String
  | .str s => s
  | v => pyRepr v

/-- Python type(v).__name__ for our values. -/
def pyTypeSimple : PyVal → String
  | .none => "NoneType"
  | .bool _ => "bool"
  | .int _ => "int"
  | .str _ => "str"
  | .list _ => "list"
  | .dict _ => "dict"

/-- Python str(type(v)), as it renders inside an f-string. -/
def pyTypeName (v : PyVal) : String :=
  "<class \x27" ++ pyTypeSimple v ++ "\x27>"

/-- Dictionary lookup (keys are unique in a Python dict; first match). -/
def dictGet? (es : List (String × PyVal)) (k : String) : Option PyVal :=
  (es.find? (fun p => p.1 == k)).map (·.2)

/-- Python repr of a list of strings, e.g. the absent-tokens list. -/
def pyReprStrList (xs : List String) : String :=
  "[" ++ String.intercalate ", " (xs.map (fun s => "\x27" ++ s ++ "\x27")) ++ "]"

/-- Python truthiness (bool(v)). -/
def pyTruthy : PyVal → Bool
  | .none => false
  | .bool b => b
  | .int n => n != 0
  | .str s => !s.isEmpty
  | .list xs => !xs.isEmpty
  | .dict es => !es.isEmpty

/-- v is None (identity with the None singleton). -/
def pyIsNone : PyVal → Bool
  | .none => true
  | _ => false

/-- isinstance(v, int): Python bools are instances of int. -/
def pyIsInstanceInt : PyVal → Bool
  | .int _ => true
  | .bool _ => true
  | _ => false

/-- Python == between a value and the contents of an Optional[str] slot
(None or a str): only the None object equals None, only an equal str
equals a str. -/
def pyEqOptStr : PyVal → Option String → Bool
  | v, Option.none => pyIsNone v
  | .str a, some s => a == s
  | _, some _ => false

/-- v[k] for a dict value: KeyError (whose str is the repr of the key) when
the key is absent, TypeError when v is not subscriptable. -/
def pySubscript (v : PyVal) (k : String) : Except PyExc PyVal :=
  match v with
  | .dict es =>
    match dictGet? es k with
    | some x => .ok x
    | Option.none => .error ⟨"KeyError", "\x27" ++ k ++ "\x27"⟩
  | _ => .error ⟨"TypeError", "\x27" ++ pyTypeSimple v ++ "\x27 object is not subscriptable"⟩

/-- v[-1] for a list value: IndexError on an empty list, TypeError when v
is not a list. -/
def pyLastItem (v : PyVal) : Except PyExc PyVal :=
  match v with
  | .list xs =>
    match xs.getLast? with
    | some x => .ok x
    | Option.none => .error ⟨"IndexError", "list index out of range"⟩
  | _ => .error ⟨"TypeError", "\x27" ++ pyTypeSimple v ++ "\x27 object is not subscriptable"⟩

/-- The argument of error_dispatcher's `error` parameter: either an
exception class (named), or an already-constructed exception instance
(get_api_answer passes the caught instance). -/
inductive ErrArg where
  | cls (name : String)
  | inst (e : PyExc)

/-- Models error_dispatcher (homework.py lines 40-54): it logs msg and
executes `raise error(msg)`. When `error` is a class, this raises an
instance of that class whose str() is msg (KeyError's str() is the repr
of its argument, hence the quotes). When `error` is an exception
*instance*, `error(msg)` calls the instance, which is not callable, so
the statement itself raises TypeError. Logging is an external sink and
is not modelled here; main's own critical log is modelled in the loop. -/
def error_dispatcher (msg : String) (err : ErrArg) : PyExc :=
  match err with
  | .cls n => ⟨n, if n == "KeyError" then "\x27" ++ msg ++ "\x27" else msg⟩
  | .inst e => ⟨"TypeError", "\x27" ++ e.cls ++ "\x27 object is not callable"⟩

/-- Endpoint constant (homework.py line 29). -/
def ENDPOINT : String := "https://practicum.yandex.ru/api/user_api/homework_statuses/"

/-- HOMEWORK_VERDICTS (homework.py lines 32-36), as an association list in
insertion order. -/
def HOMEWORK_VERDICTS : List (String × String) :=
  [("approved", "Работа проверена: ревьюеру всё понравилось. Ура!"),
   ("reviewing", "Работа взята на проверку ревьюером."),
   ("rejected", "Работа проверена: у ревьюера есть замечания.")]

/-- Lookup of HOMEWORK_VERDICTS[s]; `some` iff `s in HOMEWORK_VERDICTS`. -/
def verdict? (s : String) : Option String :=
  (HOMEWORK_VERDICTS.find? (fun p => p.1 == s)).map (·.2)

/-- Python truthiness of an os.getenv result: None and the empty string
are falsy. -/
def envFalsy : Option String → Bool
  | Option.none => true
  | some s => s.isEmpty

/-- Models check_tokens (homework.py lines 57-74): builds the tokens dict,
collects the names whose values are falsy in insertion order, and raises
EnvVarsNotSetError through error_dispatcher when any is absent. -/
def check_tokens (practicum telegram chat : Option String) : Except PyExc Unit :=
  let tokens : List (String × Option String) :=
    [("PRACTICUM_TOKEN", practicum),
     ("TELEGRAM_TOKEN", telegram),
     ("TELEGRAM_CHAT_ID", chat)]
  let absent_tokens := (tokens.filter (fun p => envFalsy p.2)).map (·.1)
  if absent_tokens.isEmpty then .ok ()
  else
    .error (error_dispatcher
      ("Отсутствует одно или более обязательных переменных окружения: "
        ++ pyReprStrList absent_tokens)
      (.cls "EnvVarsNotSetError"))

/-- What the HTTP layer does on one call of requests.get: either the call
itself raises a requests.RequestException subclass (network failure:
timeout, connection refused, DNS), or it returns a response with a status
code whose .json() either decodes to a value or raises JSONDecodeError
carrying a decode message. -/
inductive FetchOutcome where
  | netFail (clsName : String) (emsg : String)
  | resp (status_code : Nat) (body : Except String PyVal)

/-- Models get_api_answer (homework.py lines 90-115): requests.get, then
`assert response.status_code == 200` (a bare assert raises AssertionError
with empty str, caught by neither handler), then response.json(). The
JSONDecodeError handler and the RequestException handler both call
error_dispatcher with the caught *instance*, so what they actually raise
is TypeError (the instance is not callable). -/
def get_api_answer (fetch : FetchOutcome) : Except PyExc PyVal :=
  match fetch with
  | .netFail clsName emsg =>
    .error (error_dispatcher
      ("Возникла ошибка при запросе к API " ++ ENDPOINT ++ ": \n" ++ emsg)
      (.inst ⟨clsName, emsg⟩))
  | .resp status_code body =>
    if status_code ≠ 200 then .error ⟨"AssertionError", ""⟩
    else
      match body with
      | .ok response_json => .ok response_json
      | .error emsg =>
        .error (error_dispatcher
          ("Возникла ошибка при декодировании ответа " ++ ENDPOINT ++ ": \n" ++ emsg)
          (.inst ⟨"JSONDecodeError", emsg⟩))

/-- Models the current_date checks at the end of check_response
(homework.py lines 168-178): response.get("current_date", None), raise
when it is None, raise when it is not an int (a present None value and an
absent key behave identically through .get's default). -/
def check_current_date (es : List (String × PyVal)) : Except PyExc Unit :=
  let current_date := (dictGet? es "current_date").getD .none
  if pyIsNone current_date then
    .error (error_dispatcher "Отсутствует ключ \x27current_date\x27 в ответе"
      (.cls "CheckHomeworkError"))
  else if !pyIsInstanceInt current_date then
    .error (error_dispatcher
      ("Ключ \x27current_date\x27 должен быть целым числом. Получили: "
        ++ pyStr current_date ++ " типа " ++ pyTypeName current_date)
      (.cls "CheckHomeworkError"))
  else .ok ()

/-- Models check_response (homework.py lines 117-178), check for check in
source order. `"homeworks" in response` followed by `response["homeworks"]`
is rendered as one lookup (present iff the lookup succeeds, keys being
unique), likewise for `"error"`. `response["homeworks"][-1].keys()` is an
IndexError on an empty list and an AttributeError on a non-dict element;
neither is guarded. -/
def check_response (response : PyVal) : Except PyExc Unit :=
  match response with
  | .dict es =>
    match dictGet? es "homeworks" with
    | Option.none =>
      .error (error_dispatcher "Отсутствует ключ \x27homeworks\x27 в ответе"
        (.cls "CheckHomeworkError"))
    | some hwv =>
      match hwv with
      | .list hws =>
        match dictGet? es "error" with
        | some errv =>
          .error (error_dispatcher ("Ошибка при запросе: " ++ pyStr errv)
            (.cls "CheckRequestError"))
        | Option.none =>
          if (dictGet? es "code").isSome then
            let source := (dictGet? es "source").getD (.str "неизвестный источник")
            let message := (dictGet? es "message").getD (.str "нет сообщения об ошибке")
            .error (error_dispatcher
              ("В " ++ pyStr source ++ " произошла ошибка " ++ pyStr message)
              (.cls "CheckResponseError"))
          else
            match hws.getLast? with
            | Option.none => .error ⟨"IndexError", "list index out of range"⟩
            | some lastHw =>
              match lastHw with
              | .dict lastEs =>
                let missing :=
                  ["status", "homework_name"].filter
                    (fun key => (dictGet? lastEs key).isNone)
                if missing.isEmpty then check_current_date es
                else
                  .error (error_dispatcher
                    ("Отсутствуют обязательные ключи в элементе \x27homeworks\x27: "
                      ++ pyReprStrList missing)
                    (.cls "CheckRequiredFieldsError"))
              | _ =>
                .error ⟨"AttributeError",
                  "\x27" ++ pyTypeSimple lastHw ++ "\x27 object has no attribute \x27keys\x27"⟩
      | _ =>
        .error (error_dispatcher
          ("Значение по ключу \x27homeworks\x27 должно быть списком, но получили "
            ++ pyTypeName hwv ++ ".")
          (.cls "TypeError"))
  | _ =>
    .error (error_dispatcher
      ("Ответ должен быть словарем, но получили " ++ pyTypeName response ++ ".")
      (.cls "TypeError"))

/-- The try/except around homework["homework_name"] in parse_status
(homework.py lines 188-191): a KeyError is replaced by the dispatcher's
KeyError carrying the fixed message; any other exception propagates. -/
def get_homework_name (homework : PyVal) : Except PyExc PyVal :=
  match pySubscript homework "homework_name" with
  | .ok v => .ok v
  | .error e =>
    if e.cls == "KeyError" then
      .error (error_dispatcher "В ответе API нет ключа homework_name" (.cls "KeyError"))
    else .error e

/-- Models parse_status (homework.py lines 181-203). LAST_HOMEWORK_STATUS
is passed in explicitly; across the program it only ever holds None or the
message string main assigned to it, hence the Option String type of the
slot. Returns some message or none (the Python function falls through to
an implicit return None after the debug log). -/
def parse_status (homework : PyVal) (last_homework_status : Option String) :
    Except PyExc (Option String) :=
  match pySubscript homework "status" with
  | .error e => .error e
  | .ok actual_status =>
  match get_homework_name homework with
  | .error e => .error e
  | .ok homework_name =>
  match actual_status with
  | .str s =>
    match verdict? s with
    | some verdict =>
      if !pyEqOptStr actual_status last_homework_status && !pyIsNone actual_status then
        .ok (some ("Изменился статус проверки работы \"" ++ pyStr homework_name
          ++ "\". " ++ verdict))
      else .ok Option.none
    | Option.none =>
      Except.error (error_dispatcher ("Недокументированный статус: " ++ pyStr actual_status)
        (.cls "CheckStatusExpectedError"))
  | _ =>
    Except.error (error_dispatcher ("Недокументированный статус: " ++ pyStr actual_status)
      (.cls "CheckStatusExpectedError"))

/-- The loop's mutable state (homework.py main, lines 206-230): the
watermark timestamp, the LAST_HOMEWORK_STATUS global (None or the string
main assigned), and last_tg_error. -/
structure BotState where
  timestamp : PyVal
  last_homework_status : Option String
  last_tg_error : String

/-- The state main starts the loop with: timestamp = int(time.time()),
LAST_HOMEWORK_STATUS = None (module level), last_tg_error = str(). -/
def initial_state (t0 : Int) : BotState :=
  ⟨.int t0, Option.none, ""⟩

/-- The try-block of one loop iteration (homework.py lines 216-223):
get_api_answer, check_response, parse_status of response["homeworks"][-1],
then `if changes:` advance the timestamp to response["current_date"] and
send, and finally LAST_HOMEWORK_STATUS = changes. Returns the updated
state and the list of messages handed to send_message. -/
def cycle_try (st : BotState) (fetch : FetchOutcome) :
    Except PyExc (BotState × List String) := do
  let response ← get_api_answer fetch
  let _ ← check_response response
  let hws ← pySubscript response "homeworks"
  let lastHw ← pyLastItem hws
  let changes ← parse_status lastHw st.last_homework_status
  match changes with
  | some s =>
    if s.isEmpty then
      pure ({ st with last_homework_status := some s }, [])
    else do
      let cd ← pySubscript response "current_date"
      pure ({ st with timestamp := cd, last_homework_status := some s }, [s])
  | Option.none =>
    pure ({ st with last_homework_status := Option.none }, [])

/-- One full loop iteration including the except-branch (homework.py lines
215-230): on any exception, build the failure message, send it only when
it differs from last_tg_error (updating last_tg_error when sent), and
always log it at critical level. send_message's own delivery errors are
swallowed inside send_message and do not affect this control flow. -/
def main_cycle (st : BotState) (fetch : FetchOutcome) :
    BotState × List String × List String :=
  match cycle_try st fetch with
  | .ok (st2, sent) => (st2, sent, [])
  | .error e =>
    let message := "Сбой в работе программы: " ++ e.msg
    if message ≠ st.last_tg_error then
      ({ st with last_tg_error := message }, [message], [message])
    else
      (st, [], [message])

/-- Runs consecutive loop iterations, concatenating the sent messages and
the critical logs (second and third components of the result). -/
def run_cycles (st : BotState) (fetches : List FetchOutcome) :
    BotState × List String × List String :=
  match fetches with
  | [] => (st, [], [])
  | f :: fs =>
    let r := main_cycle st f
    let rest := run_cycles r.1 fs
    (rest.1, r.2.1 ++ rest.2.1, r.2.2 ++ rest.2.2)

/-- Models main's startup (homework.py lines 206-215): check_tokens runs
before the while-loop with no enclosing try, so a raised
EnvVarsNotSetError propagates and the loop is never entered. -/
def main_enters_loop (practicum telegram chat : Option String) : Bool :=
  match check_tokens practicum telegram chat with
  | .ok _ => true
  | .error _ => false

/-- The class names defined at top level of exceptions.py (lines 1-23). -/
def exceptions_module_defs : List String :=
  ["EnvVarsNotSetError", "CheckReviewError", "CheckRequestError",
   "CheckResponseError", "CheckStatusExpectedError", "CheckRequiredFieldsError"]

/-- The names homework.py imports from exceptions (lines 12-19). -/
def homework_imports_from_exceptions : List String :=
  ["CheckHomeworkError", "CheckRequestError", "CheckRequiredFieldsError",
   "CheckResponseError", "CheckStatusExpectedError", "EnvVarsNotSetError"]

/-- A from-import succeeds iff every imported name is defined in the
module; otherwise loading homework.py raises ImportError before any
statement after the import (and hence any function) runs. -/
def homework_module_loads : Bool :=
  homework_imports_from_exceptions.all (fun n => exceptions_module_defs.contains n)

/-- The last homework of the test fixture data_with_new_hw_status
(tests/fixtures/fixture_data.py). -/
def fixture_homework : PyVal :=
  .dict [("id", .int 777777777),
         ("homework_name", .str "hw123.zip"),
         ("status", .str "approved"),
         ("reviewer_comment", .str "Принято!"),
         ("date_updated", .str "2021-04-11T10:31:09Z"),
         ("lesson_name", .str "Проект спринта: Деплой бота")]

/-- The fixture response: one homework, a current_date. -/
def fixture_response : PyVal :=
  .dict [("homeworks", .list [fixture_homework]),
         ("current_date", .int 1000198000)]

/-- A cycle whose fetch succeeds with the fixture response. -/
def fixture_fetch : FetchOutcome := .resp 200 (.ok fixture_response)

/-- The message parse_status builds for the fixture homework. -/
def fixture_message : String :=
  "Изменился статус проверки работы \"hw123.zip\". Работа проверена: ревьюеру всё понравилось. Ура!"

/-- The exception classes the validator's own checks (homework.py
lines 126-178) raise through error_dispatcher. -/
def validator_taxonomy : List String :=
  ["TypeError", "CheckHomeworkError", "CheckRequestError",
   "CheckResponseError", "CheckRequiredFieldsError"]

/-- A response whose error key holds the falsy empty string while its
homeworks value is a structurally valid non-empty list. -/
def falsy_error_entries : List (String × PyVal) :=
  [("homeworks", .list [.dict [("status", .str "approved"),
                               ("homework_name", .str "hw123.zip")]]),
   ("error", .str ""),
   ("current_date", .int 1000198000)]

/-- C10: homework.py imports CheckHomeworkError from the exceptions
module, but exceptions.py defines no class of that name (it defines
CheckReviewError instead), so loading the program fails with ImportError
before any operation — config check, fetch, validate or interpret — can
execute. -/
theorem c10_import_of_missing_name_fails :
    homework_module_loads = false
    ∧ "CheckHomeworkError" ∈ homework_imports_from_exceptions
    ∧ "CheckHomeworkError" ∉ exceptions_module_defs
    ∧ "CheckReviewError" ∈ exceptions_module_defs := by
  refine ⟨rfl, ?_, ?_, ?_⟩ <;> decide

/-- C1: feeding the fixture response (last submission status approved) to
two consecutive loop cycles from the initial state sends the same
status-change notification in BOTH cycles, refuting at most one across
the two: main stores the produced message (not the status) in
LAST_HOMEWORK_STATUS, and parse_status compares the raw status against
that slot, so the second cycle's unchanged status still differs from the
recorded value and a second message is produced and sent. -/
theorem c1_unchanged_status_notifies_twice :
    (run_cycles (initial_state 1000197000) [fixture_fetch, fixture_fetch]).2.1
        = [fixture_message, fixture_message]
    ∧ (run_cycles (initial_state 1000197000) [fixture_fetch, fixture_fetch]).2.1.length = 2
    ∧ (run_cycles (initial_state 1000197000)
        [fixture_fetch, fixture_fetch]).1.last_homework_status = some fixture_message :=
  ⟨rfl, rfl, rfl⟩

/-- C2: the fetch failure paths do not raise the stated exception kinds.
A non-200 status raises a bare AssertionError (the assert, caught by
neither handler); a body that is not valid JSON and a network-level
failure both end in TypeError, because get_api_answer hands the caught
exception *instance* to error_dispatcher, which calls it — an exception
instance is not callable. Every one of them is still caught at the loop
boundary, which turns it into a failure notification. -/
theorem c2_fetch_failures_raise_wrong_kinds :
    get_api_answer (.resp 404 (.ok (.dict []))) = .error ⟨"AssertionError", ""⟩
    ∧ get_api_answer (.resp 200 (.error "Expecting value: line 1 column 1 (char 0)"))
        = .error ⟨"TypeError", "\x27JSONDecodeError\x27 object is not callable"⟩
    ∧ get_api_answer (.netFail "ConnectionError" "Connection refused")
        = .error ⟨"TypeError", "\x27ConnectionError\x27 object is not callable"⟩
    ∧ (main_cycle (initial_state 0) (.netFail "ConnectionError" "Connection refused")).2.1
        = ["Сбой в работе программы: \x27ConnectionError\x27 object is not callable"]
    ∧ (main_cycle (initial_state 0)
        (.resp 200 (.error "Expecting value: line 1 column 1 (char 0)"))).2.1
        = ["Сбой в работе программы: \x27JSONDecodeError\x27 object is not callable"] :=
  ⟨rfl, rfl, rfl, rfl, rfl⟩

/-- C6: when all three credential values are present and non-empty,
check_tokens succeeds and main proceeds into the loop; when any one is
empty or absent, check_tokens raises EnvVarsNotSetError and the polling
loop is never entered. -/
theorem c6_config_guard (practicum telegram chat : Option String) :
    (envFalsy practicum = false ∧ envFalsy telegram = false ∧ envFalsy chat = false →
      check_tokens practicum telegram chat = .ok ()
      ∧ main_enters_loop practicum telegram chat = true)
    ∧ ((envFalsy practicum = true ∨ envFalsy telegram = true ∨ envFalsy chat = true) →
      (∃ m, check_tokens practicum telegram chat = .error ⟨"EnvVarsNotSetError", m⟩)
      ∧ main_enters_loop practicum telegram chat = false) := by
  cases hp : envFalsy practicum <;> cases ht : envFalsy telegram <;> cases hc : envFalsy chat <;>
    simp [check_tokens, main_enters_loop, error_dispatcher, hp, ht, hc]

/-- Witness for c6_config_guard: three present tokens start the loop; a
missing PRACTICUM_TOKEN raises EnvVarsNotSetError and the loop is not
entered. -/
theorem c6_config_guard_witness :
    (check_tokens (some "p") (some "t") (some "c") = .ok ()
      ∧ main_enters_loop (some "p") (some "t") (some "c") = true)
    ∧ ((∃ m, check_tokens Option.none (some "t") (some "c")
        = .error ⟨"EnvVarsNotSetError", m⟩)
      ∧ main_enters_loop Option.none (some "t") (some "c") = false) :=
  ⟨(c6_config_guard (some "p") (some "t") (some "c")).1 ⟨rfl, rfl, rfl⟩,
   (c6_config_guard Option.none (some "t") (some "c")).2 (Or.inl rfl)⟩

/-- C4: check_response raises in source order: a non-mapping response is
rejected with TypeError before anything else, and a mapping lacking the
homeworks key raises CheckHomeworkError (the missing-field error) no
matter what else the response holds — the error, code, last-element and
current_date checks never execute for it. -/
theorem c4_missing_homeworks_first (response : PyVal) (es : List (String × PyVal)) :
    ((∀ es2, response ≠ .dict es2) →
      check_response response
        = .error ⟨"TypeError",
            "Ответ должен быть словарем, но получили " ++ pyTypeName response ++ "."⟩)
    ∧ (dictGet? es "homeworks" = Option.none →
      check_response (.dict es)
        = .error ⟨"CheckHomeworkError", "Отсутствует ключ \x27homeworks\x27 в ответе"⟩) := by
  constructor
  · intro h
    cases response <;>
      first
      | exact absurd rfl (h _)
      | simp [check_response, error_dispatcher]
  · intro h
    simp [check_response, h, error_dispatcher]

/-- Witness for c4_missing_homeworks_first: a non-dict response raises
TypeError; a dict with error and code keys but no homeworks raises
CheckHomeworkError, not the error/code exceptions. -/
theorem c4_missing_homeworks_first_witness :
    check_response (.int 5)
      = .error ⟨"TypeError",
          "Ответ должен быть словарем, но получили " ++ pyTypeName (.int 5) ++ "."⟩
    ∧ check_response (.dict [("error", .str "boom"), ("code", .int 1)])
      = .error ⟨"CheckHomeworkError", "Отсутствует ключ \x27homeworks\x27 в ответе"⟩ :=
  ⟨(c4_missing_homeworks_first (.int 5) []).1 (fun _ h => PyVal.noConfusion h),
   (c4_missing_homeworks_first (.int 5) [("error", .str "boom"), ("code", .int 1)]).2 rfl⟩

/-- C9: a response that passes the structural checks (mapping, homeworks
present and a list, no error and no code key) but whose homeworks list is
empty makes check_response index the last element out of bounds: the
result is IndexError, which is not one of the validator's taxonomy
exception classes — the empty list is unguarded. -/
theorem c9_empty_homeworks_unguarded (es : List (String × PyVal))
    (h1 : dictGet? es "homeworks" = some (.list []))
    (h2 : dictGet? es "error" = Option.none)
    (h3 : dictGet? es "code" = Option.none) :
    check_response (.dict es) = .error ⟨"IndexError", "list index out of range"⟩
    ∧ "IndexError" ∉ validator_taxonomy := by
  refine ⟨?_, by decide⟩
  simp [check_response, h1, h2, h3]

/-- Witness for c9_empty_homeworks_unguarded at a concrete response with
an empty homeworks list and a valid current_date. -/
theorem c9_empty_homeworks_unguarded_witness :
    check_response (.dict [("homeworks", .list []), ("current_date", .int 5)])
      = .error ⟨"IndexError", "list index out of range"⟩
    ∧ "IndexError" ∉ validator_taxonomy :=
  c9_empty_homeworks_unguarded [("homeworks", .list []), ("current_date", .int 5)] rfl rfl rfl

/-- C3 counterexample: a response whose error key holds the falsy empty
string, with structurally valid homeworks, still raises CheckRequestError:
check_response tests the key's presence, not its truthiness, so a present
but falsy error value does raise — refuting the only-if direction of the
claim's iff. -/
theorem c3_falsy_error_still_raises :
    dictGet? falsy_error_entries "error" = some (.str "")
    ∧ pyTruthy (.str "") = false
    ∧ check_response (.dict falsy_error_entries)
        = .error ⟨"CheckRequestError", "Ошибка при запросе: "⟩ :=
  ⟨rfl, rfl, rfl⟩

/-- Helper: every exception check_current_date raises has class
CheckHomeworkError. -/
theorem check_current_date_cls (es : List (String × PyVal)) (e : PyExc)
    (h : check_current_date es = .error e) : e.cls = "CheckHomeworkError" := by
  simp only [check_current_date] at h
  split at h
  · cases h; rfl
  · split at h
    · cases h; rfl
    · cases h

/-- C3 amended: for a response that passes the structural checks (a
mapping whose homeworks value is a list), check_response raises
CheckRequestError carrying the error value if and only if the key error
is PRESENT (regardless of its truthiness), and a present error takes
precedence over all remaining checks even when homeworks is structurally
valid; with no error key, no branch of check_response ever raises
CheckRequestError. -/
theorem c3_error_presence_decides (es : List (String × PyVal)) (hws : List PyVal)
    (hhw : dictGet? es "homeworks" = some (.list hws)) :
    (∀ v, dictGet? es "error" = some v →
      check_response (.dict es)
        = .error ⟨"CheckRequestError", "Ошибка при запросе: " ++ pyStr v⟩)
    ∧ (dictGet? es "error" = Option.none →
      ∀ e, check_response (.dict es) = .error e → e.cls ≠ "CheckRequestError") := by
  constructor
  · intro v hv
    simp [check_response, hhw, hv, error_dispatcher]
  · intro hne e he
    simp only [check_response, hhw, hne, error_dispatcher] at he
    split at he
    · cases he; simp
    · split at he
      · cases he; simp
      · split at he
        · split at he
          · have := check_current_date_cls _ _ he
            simp [this]
          · cases he; simp
        · cases he; simp

/-- Witness for c3_error_presence_decides: with error present the raise is
CheckRequestError carrying the value; with error absent the raised
exception (here the unguarded IndexError) is not CheckRequestError. -/
theorem c3_error_presence_decides_witness :
    check_response (.dict [("homeworks", .list []), ("error", .str "boom")])
      = .error ⟨"CheckRequestError", "Ошибка при запросе: " ++ pyStr (.str "boom")⟩
    ∧ (⟨"IndexError", "list index out of range"⟩ : PyExc).cls ≠ "CheckRequestError" :=
  ⟨(c3_error_presence_decides [("homeworks", .list []), ("error", .str "boom")] [] rfl).1
      (.str "boom") rfl,
   (c3_error_presence_decides [("homeworks", .list []), ("current_date", .int 5)] [] rfl).2
      rfl ⟨"IndexError", "list index out of range"⟩ rfl⟩

/-- C5: for a submission whose status is one of the enumerated verdict
keys and whose homework_name is present, parse_status returns the message
built from the fixed prefix, the submission's name and the verdict text
keyed by the status whenever the status differs from the last-seen value,
and returns None when the status equals the last-seen value. -/
theorem c5_interpret_message (es : List (String × PyVal)) (s name verdict : String)
    (last : Option String)
    (hs : dictGet? es "status" = some (.str s))
    (hn : dictGet? es "homework_name" = some (.str name))
    (hv : verdict? s = some verdict) :
    (last ≠ some s →
      parse_status (.dict es) last
        = .ok (some ("Изменился статус проверки работы \"" ++ name ++ "\". " ++ verdict)))
    ∧ (last = some s → parse_status (.dict es) last = .ok Option.none) := by
  constructor
  · intro h
    cases last with
    | none =>
      simp [parse_status, get_homework_name, pySubscript, hs, hn, hv, pyEqOptStr, pyIsNone,
        pyStr]
    | some ls =>
      have hne : (s == ls) = false := by
        simp only [beq_eq_false_iff_ne]
        intro hsl
        exact h (by rw [hsl])
      simp [parse_status, get_homework_name, pySubscript, hs, hn, hv, pyEqOptStr, pyIsNone,
        pyStr, hne]
  · intro h
    subst h
    simp [parse_status, get_homework_name, pySubscript, hs, hn, hv, pyEqOptStr, pyIsNone,
      pyStr]

/-- Witness for c5_interpret_message: the spec's example — status approved
against last-seen reviewing yields the approved verdict with the name;
against last-seen approved it yields no message. -/
theorem c5_interpret_message_witness :
    parse_status (.dict [("homework_name", .str "hw123.zip"), ("status", .str "approved")])
        (some "reviewing")
      = .ok (some ("Изменился статус проверки работы \"" ++ "hw123.zip" ++ "\". "
          ++ "Работа проверена: ревьюеру всё понравилось. Ура!"))
    ∧ parse_status (.dict [("homework_name", .str "hw123.zip"), ("status", .str "approved")])
        (some "approved")
      = .ok Option.none :=
  ⟨(c5_interpret_message [("homework_name", .str "hw123.zip"), ("status", .str "approved")]
      "approved" "hw123.zip" _ (some "reviewing") rfl rfl rfl).1 (by decide),
   (c5_interpret_message [("homework_name", .str "hw123.zip"), ("status", .str "approved")]
      "approved" "hw123.zip" _ (some "approved") rfl rfl rfl).2 rfl⟩

/-- C8: every submission mapping that lacks the homework_name key makes
parse_status fail with a KeyError — either the raw KeyError of the
initial status subscript or the dispatcher's KeyError carrying the fixed
message — i.e. the missing-field failure of the interpreter. -/
theorem c8_missing_homework_name (es : List (String × PyVal)) (last : Option String)
    (h : dictGet? es "homework_name" = Option.none) :
    ∃ m, parse_status (.dict es) last = .error ⟨"KeyError", m⟩ := by
  cases hst : dictGet? es "status" with
  | none =>
    exact ⟨"\x27status\x27", by simp [parse_status, pySubscript, hst]⟩
  | some v =>
    exact ⟨"\x27В ответе API нет ключа homework_name\x27", by
      simp [parse_status, get_homework_name, pySubscript, hst, h, error_dispatcher]⟩

/-- Witness for c8_missing_homework_name at a submission holding only a
status. -/
theorem c8_missing_homework_name_witness :
    ∃ m, parse_status (.dict [("status", .str "approved")]) Option.none
      = .error ⟨"KeyError", m⟩ :=
  c8_missing_homework_name [("status", .str "approved")] Option.none rfl

/-- C7: when two consecutive cycles both fail (the try-block raises) and
the first failure message is not the one already notified, exactly one
failure notification is sent across the two cycles when the two messages
are textually identical, and two are sent when they differ; the failure
is logged at critical level in both cycles regardless of notification. -/
theorem c7_failure_dedup (st : BotState) (f1 f2 : FetchOutcome) (e1 e2 : PyExc)
    (h1 : cycle_try st f1 = .error e1)
    (h2 : cycle_try (main_cycle st f1).1 f2 = .error e2)
    (hfresh : "Сбой в работе программы: " ++ e1.msg ≠ st.last_tg_error) :
    (e1.msg = e2.msg →
      (main_cycle st f1).2.1 ++ (main_cycle (main_cycle st f1).1 f2).2.1
        = ["Сбой в работе программы: " ++ e1.msg])
    ∧ ("Сбой в работе программы: " ++ e1.msg ≠ "Сбой в работе программы: " ++ e2.msg →
      (main_cycle st f1).2.1 ++ (main_cycle (main_cycle st f1).1 f2).2.1
        = ["Сбой в работе программы: " ++ e1.msg, "Сбой в работе программы: " ++ e2.msg])
    ∧ (main_cycle st f1).2.2 = ["Сбой в работе программы: " ++ e1.msg]
    ∧ (main_cycle (main_cycle st f1).1 f2).2.2
        = ["Сбой в работе программы: " ++ e2.msg] := by
  have hm1 : main_cycle st f1
      = ({ st with last_tg_error := "Сбой в работе программы: " ++ e1.msg },
         ["Сбой в работе программы: " ++ e1.msg],
         ["Сбой в работе программы: " ++ e1.msg]) := by
    simp [main_cycle, h1, hfresh]
  have h2' : cycle_try { st with last_tg_error := "Сбой в работе программы: " ++ e1.msg } f2
      = .error e2 := by
    rw [hm1] at h2
    exact h2
  by_cases hc : ("Сбой в работе программы: " ++ e2.msg)
      = ("Сбой в работе программы: " ++ e1.msg)
  · have hm2 : main_cycle
        { st with last_tg_error := "Сбой в работе программы: " ++ e1.msg } f2
        = ({ st with last_tg_error := "Сбой в работе программы: " ++ e1.msg },
           [], ["Сбой в работе программы: " ++ e2.msg]) := by
      simp [main_cycle, h2', hc]
    refine ⟨fun _ => by simp [hm1, hm2], fun hneq => absurd hc.symm hneq, ?_, ?_⟩
    · simp [hm1]
    · simp [hm1, hm2]
  · have hm2 : main_cycle
        { st with last_tg_error := "Сбой в работе программы: " ++ e1.msg } f2
        = ({ st with last_tg_error := "Сбой в работе программы: " ++ e2.msg },
           ["Сбой в работе программы: " ++ e2.msg],
           ["Сбой в работе программы: " ++ e2.msg]) := by
      simp [main_cycle, h2', hc]
    refine ⟨fun heq => absurd (by rw [heq]) hc, fun _ => by simp [hm1, hm2], ?_, ?_⟩
    · simp [hm1]
    · simp [hm1, hm2]

/-- Witness for c7_failure_dedup: two identical connection failures from
the initial state notify once; a connection failure followed by a timeout
failure notifies twice. -/
theorem c7_failure_dedup_witness :
    ((main_cycle (initial_state 0) (.netFail "ConnectionError" "x")).2.1
      ++ (main_cycle (main_cycle (initial_state 0) (.netFail "ConnectionError" "x")).1
            (.netFail "ConnectionError" "x")).2.1
      = ["Сбой в работе программы: "
          ++ "\x27ConnectionError\x27 object is not callable"])
    ∧ ((main_cycle (initial_state 0) (.netFail "ConnectionError" "x")).2.1
      ++ (main_cycle (main_cycle (initial_state 0) (.netFail "ConnectionError" "x")).1
            (.netFail "Timeout" "y")).2.1
      = ["Сбой в работе программы: "
          ++ "\x27ConnectionError\x27 object is not callable",
         "Сбой в работе программы: "
          ++ "\x27Timeout\x27 object is not callable"]) :=
  ⟨(c7_failure_dedup (initial_state 0) (.netFail "ConnectionError" "x")
      (.netFail "ConnectionError" "x")
      ⟨"TypeError", "\x27ConnectionError\x27 object is not callable"⟩
      ⟨"TypeError", "\x27ConnectionError\x27 object is not callable"⟩
      rfl rfl (by decide)).1 rfl,
   (c7_failure_dedup (initial_state 0) (.netFail "ConnectionError" "x")
      (.netFail "Timeout" "y")
      ⟨"TypeError", "\x27ConnectionError\x27 object is not callable"⟩
      ⟨"TypeError", "\x27Timeout\x27 object is not callable"⟩
      rfl rfl (by decide)).2.1 (by decide)⟩
